import Mathlib

/-!
# DRAMsim3 configuration: enumerations, capability queries, constructor

A shallow embedding of `src/configuration.h` (namespace `dramsim3`): the two
enumerations, the `Config` record and its inline capability queries, followed
by a model of the constructor and its private stages, which the header only
declares, after the specification's description of them.
C++ `int` members are carried as `Int` (the arithmetic of the modelled stages
is the specification's, on unbounded integers; the concrete inputs below stay
within the range of a 32-bit `int`), `double` members as `Rat`,
`std::string` members as `String`, `bool` members as `Bool`.
-/

namespace dramsim3

/-- The enumeration `enum class DRAMProtocol` of `configuration.h`, lines 15-27:
ten protocols followed by the enumerator `SIZE`. -/
inductive DRAMProtocol where
  | DDR3
  | DDR4
  | GDDR5
  | GDDR5X
  | LPDDR
  | LPDDR3
  | LPDDR4
  | HBM
  | HBM2
  | HMC
  | SIZE
  deriving DecidableEq, Repr

/-- The enumeration `enum class RefreshPolicy` of `configuration.h`, lines 29-34:
three policies followed by the enumerator `SIZE`. -/
inductive RefreshPolicy where
  | RANK_LEVEL_SIMULTANEOUS
  | RANK_LEVEL_STAGGERED
  | BANK_LEVEL_STAGGERED
  | SIZE
  deriving DecidableEq, Repr

/-- The data members of `class Config` (`configuration.h`, lines 40-161), in
declaration order; the members under `#ifdef THERMAL` and the private
`reader_` pointer are left out. -/
structure Config where
  -- DRAM physical structure
  protocol : DRAMProtocol
  channel_size : Int
  channels : Int
  ranks : Int
  banks : Int
  bankgroups : Int
  banks_per_group : Int
  rows : Int
  columns : Int
  device_width : Int
  bus_width : Int
  devices_per_rank : Int
  BL : Int
  -- Generic DRAM timing parameters
  tCK : Rat
  burst_cycle : Int
  AL : Int
  CL : Int
  CWL : Int
  RL : Int
  WL : Int
  tCCD_L : Int
  tCCD_S : Int
  tRTRS : Int
  tRTP : Int
  tWTR_L : Int
  tWTR_S : Int
  tWR : Int
  tRP : Int
  tRRD_L : Int
  tRRD_S : Int
  tRAS : Int
  tRCD : Int
  tRFC : Int
  tRC : Int
  tCKE : Int
  tCKESR : Int
  tXS : Int
  tXP : Int
  tRFCb : Int
  tREFI : Int
  tREFIb : Int
  tFAW : Int
  tRPRE : Int
  tWPRE : Int
  read_delay : Int
  write_delay : Int
  -- LPDDR4 and GDDR5
  tPPD : Int
  -- GDDR5
  t32AW : Int
  tRCDRD : Int
  tRCDWR : Int
  -- pre calculated power parameters
  act_energy_inc : Rat
  pre_energy_inc : Rat
  read_energy_inc : Rat
  write_energy_inc : Rat
  ref_energy_inc : Rat
  refb_energy_inc : Rat
  act_stb_energy_inc : Rat
  pre_stb_energy_inc : Rat
  pre_pd_energy_inc : Rat
  sref_energy_inc : Rat
  -- HMC
  num_links : Int
  num_dies : Int
  link_width : Int
  link_speed : Int
  num_vaults : Int
  block_size : Int
  xbar_queue_depth : Int
  -- System
  address_mapping : String
  queue_structure : String
  row_buf_policy : String
  refresh_policy : RefreshPolicy
  cmd_queue_size : Int
  trans_queue_size : Int
  delay_queue_cycles : Int
  enable_self_refresh : Bool
  sref_threshold : Int
  aggressive_precharging_enabled : Bool
  enable_hbm_dual_cmd : Bool
  output_prefix : String
  epoch_period : Int
  output_level : Int
  output_dir : String
  stats_file : String
  epoch_stats_file : String
  stats_file_csv : String
  epoch_stats_file_csv : String
  histo_stats_file_csv : String
  -- Computed parameters
  request_size_bytes : Int
  channel_width : Int
  rank_width : Int
  bankgroup_width : Int
  bank_width : Int
  row_width : Int
  column_width : Int
  ideal_memory_latency : Int

/-- `Config::IsGDDR` (`configuration.h`, lines 149-152). -/
def Config.IsGDDR (c : Config) : Bool :=
  c.protocol == DRAMProtocol.GDDR5 || c.protocol == DRAMProtocol.GDDR5X

/-- `Config::IsHBM` (`configuration.h`, lines 153-156). -/
def Config.IsHBM (c : Config) : Bool :=
  c.protocol == DRAMProtocol.HBM || c.protocol == DRAMProtocol.HBM2

/-- `Config::IsHMC` (`configuration.h`, line 157). -/
def Config.IsHMC (c : Config) : Bool :=
  c.protocol == DRAMProtocol.HMC

/-- `Config::IsDDR4` (`configuration.h`, line 159). -/
def Config.IsDDR4 (c : Config) : Bool :=
  c.protocol == DRAMProtocol.DDR4

/-- The ten protocols that the specification lists, in the order of the
enumeration. -/
def DRAMProtocol.named : List DRAMProtocol :=
  [DRAMProtocol.DDR3, DRAMProtocol.DDR4, DRAMProtocol.GDDR5, DRAMProtocol.GDDR5X,
   DRAMProtocol.LPDDR, DRAMProtocol.LPDDR3, DRAMProtocol.LPDDR4, DRAMProtocol.HBM,
   DRAMProtocol.HBM2, DRAMProtocol.HMC]

/-- The three refresh policies that the specification lists (rank-simultaneous,
rank-staggered, bank-staggered), in the order of the enumeration. -/
def RefreshPolicy.named : List RefreshPolicy :=
  [RefreshPolicy.RANK_LEVEL_SIMULTANEOUS, RefreshPolicy.RANK_LEVEL_STAGGERED,
   RefreshPolicy.BANK_LEVEL_STAGGERED]

/-! ## The constructor, modelled from the specification

`configuration.h` only declares the constructor and the private methods
(`GetDRAMProtocol`, `InitDRAMParams`, `InitTimingParams`, `SetAddressMapping`,
`SanityCheck`, ...); their bodies are defined outside the sources at hand.
The definitions of this section follow the specification's description of
them, stage by stage. -/

/-- Modelled from the spec: the error kinds of §7 raised by the constructor,
whose body is missing from the sources. `ConfigParseError` identifies the
section and key, `InvalidProtocolError` carries the offending string,
`ConfigValidationError` names the violated relation. -/
inductive ConfigError where
  | ConfigFileError
  | ConfigParseError (sec key : String)
  | InvalidProtocolError (name : String)
  | ConfigValidationError (violated : String)
  deriving DecidableEq, Repr

/-- Modelled from the spec: the fixed enumeration of §3 that the missing body
of `Config::GetDRAMProtocol` matches a name against, as name/value pairs. -/
def protocol_pairs : List (String × DRAMProtocol) :=
  [("DDR3", DRAMProtocol.DDR3), ("DDR4", DRAMProtocol.DDR4),
   ("GDDR5", DRAMProtocol.GDDR5), ("GDDR5X", DRAMProtocol.GDDR5X),
   ("LPDDR", DRAMProtocol.LPDDR), ("LPDDR3", DRAMProtocol.LPDDR3),
   ("LPDDR4", DRAMProtocol.LPDDR4), ("HBM", DRAMProtocol.HBM),
   ("HBM2", DRAMProtocol.HBM2), ("HMC", DRAMProtocol.HMC)]

/-- Modelled from the spec: the missing body of `Config::GetDRAMProtocol`
(declared at `configuration.h`, line 193), after §4.2: the name is matched
case-sensitively against the fixed enumeration, and an unrecognized name fails
with `InvalidProtocolError` carrying the offending string. -/
def GetDRAMProtocol (protocol_str : String) : Except ConfigError DRAMProtocol :=
  match protocol_pairs.lookup protocol_str with
  | some protocol => Except.ok protocol
  | none => Except.error (ConfigError.InvalidProtocolError protocol_str)

/-- Modelled from the spec: what the Field Loader (§4.1), whose code is missing
from the sources, hands to the later stages: the protocol name as read, and
the object with every directly read member filled in. The derived members
(`protocol`, `burst_cycle`, `RL`, `WL`, the delays, the address widths, the
energy increments, the output paths) are assigned by the later stages. -/
structure Loaded where
  protocol_str : String
  fields : Config

/-- Modelled from the spec: the ten per-operation energy increments that the
Power-Coefficient Precomputer (§4.5) produces. -/
structure EnergyIncrements where
  act : Rat
  pre : Rat
  read : Rat
  write : Rat
  ref : Rat
  refb : Rat
  act_stb : Rat
  pre_stb : Rat
  pre_pd : Rat
  sref : Rat

/-- Modelled from the spec: the parts of the constructor that the spec assigns
to external collaborators or names without giving a formula, taken as
parameters. `load` is the file reader with the Field Loader on top (§1, §4.1;
it fails with `ConfigFileError` or `ConfigParseError`); `gddr_burst_cycle` is
the GDDR-class relation of §4.3 item 1 (arguments: burst length, bus width);
the two slacks are the preamble-related terms of §4.3 item 3 (argument: the
preamble timing); `capacity_scaling` is the adjustment "for devices-per-rank
and device width scaling" of §4.4 item 3 (arguments: devices per rank, device
width, the unadjusted capacity); `energy_increments` is the precomputer of
§4.5; `output_path` joins the output directory, the output prefix and the
fixed suffix of the named file (§6); `further_checks` stands for what the
Sanity Checker checks beyond the minimum listed in §4.6. -/
structure Externals where
  load : String → Except ConfigError Loaded
  gddr_burst_cycle : Int → Int → Int
  read_preamble_slack : Int → Int
  write_preamble_slack : Int → Int
  capacity_scaling : Int → Int → Int → Int
  energy_increments : Config → Except ConfigError EnergyIncrements
  output_path : String → String → String → String
  further_checks : Config → Except ConfigError Unit

/-- Search for the least `k` at or above the given one with `n ≤ 2 ^ k`,
giving up after `fuel` steps. -/
def ceil_log2_from (n : Nat) : Nat → Nat → Nat
  | 0, k => k
  | fuel + 1, k => if n ≤ 2 ^ k then k else ceil_log2_from n fuel (k + 1)

/-- Modelled from the spec: `ceil(log2(n))` of §4.4 item 2, the least `k` with
`n ≤ 2 ^ k` (`n` steps of search suffice since `n ≤ 2 ^ n`). -/
def ceil_log2 (n : Nat) : Nat :=
  ceil_log2_from n n 0

/-- Modelled from the spec: the bit width of an address field from its count,
`ceil(log2(count))` (§4.4 item 2), on the `int` members of the object; a
count below 2 gives width 0. -/
def LogBase2 (count : Int) : Int :=
  (ceil_log2 count.toNat : Nat)

/-- Modelled from the spec: §4.3, the Timing Deriver, standing for the missing
body of `Config::InitTimingParams` (declared at `configuration.h`, line 203).
Item 1: the burst cycle is half the burst length, except for the GDDR-class
protocols; item 2: `RL = AL + CL`, `WL = AL + CWL`; item 3: the delays;
item 4: the protocol-specific extras keep their value only for the protocols
that need them (`tPPD` for LPDDR4 and GDDR5, the other three for GDDR5) and
are zero otherwise. -/
def InitTimingParams (ext : Externals) (c : Config) : Config :=
  let burst_cycle :=
    if c.IsGDDR then ext.gddr_burst_cycle c.BL c.bus_width else Int.tdiv c.BL 2
  let RL := c.AL + c.CL
  let WL := c.AL + c.CWL
  let read_delay := RL + burst_cycle + ext.read_preamble_slack c.tRPRE
  let write_delay := WL + burst_cycle + ext.write_preamble_slack c.tWPRE
  let pulsed := c.protocol == DRAMProtocol.LPDDR4 || c.protocol == DRAMProtocol.GDDR5
  let gddr5 := c.protocol == DRAMProtocol.GDDR5
  { c with
    burst_cycle := burst_cycle
    RL := RL
    WL := WL
    read_delay := read_delay
    write_delay := write_delay
    tPPD := if pulsed then c.tPPD else 0
    t32AW := if gddr5 then c.t32AW else 0
    tRCDRD := if gddr5 then c.tRCDRD else 0
    tRCDWR := if gddr5 then c.tRCDWR else 0 }

/-- The sum of the five address-field widths below the channel field. -/
def Config.in_channel_width (c : Config) : Int :=
  c.rank_width + c.bankgroup_width + c.bank_width + c.row_width + c.column_width

/-- The sum of all six address-field widths. -/
def Config.address_width (c : Config) : Int :=
  c.channel_width + c.rank_width + c.bankgroup_width + c.bank_width + c.row_width +
    c.column_width

/-- Modelled from the spec: the capacity relation validated in §4.4 item 3 and
re-validated by the Sanity Checker (§4.6): `channel_size` (bytes) equals
`2^(rank_width+bankgroup_width+bank_width+row_width+column_width) *
request_size_bytes`, adjusted for devices-per-rank and device width scaling. -/
def Config.capacity_matches (ext : Externals) (c : Config) : Bool :=
  c.channel_size ==
    ext.capacity_scaling c.devices_per_rank c.device_width
      (2 ^ c.in_channel_width.toNat * c.request_size_bytes)

/-- Modelled from the spec: §4.4 items 1-3, the Geometry / Address-Width
Calculator, standing for the missing body of `Config::SetAddressMapping`
(declared at `configuration.h`, line 205). Each width is `ceil(log2)` of the
field's count among the six counts of §3 (channels, ranks, bankgroups, banks,
rows, columns); a capacity mismatch is a fatal configuration error. -/
def SetAddressMapping (ext : Externals) (c : Config) : Except ConfigError Config :=
  let c1 : Config :=
    { c with
      request_size_bytes := Int.tdiv c.bus_width 8 * c.BL
      channel_width := LogBase2 c.channels
      rank_width := LogBase2 c.ranks
      bankgroup_width := LogBase2 c.bankgroups
      bank_width := LogBase2 c.banks
      row_width := LogBase2 c.rows
      column_width := LogBase2 c.columns }
  if c1.capacity_matches ext then Except.ok c1
  else Except.error (ConfigError.ConfigValidationError
    "channel_size == 2^(rank+bankgroup+bank+row+column widths) * request_size_bytes")

/-- Modelled from the spec: §4.5, the Power-Coefficient Precomputer, standing
for the missing body of `Config::InitPowerParams`; the increments come from
the external precomputer, whose failure is fatal. -/
def InitPowerParams (ext : Externals) (c : Config) : Except ConfigError Config :=
  match ext.energy_increments c with
  | Except.error e => Except.error e
  | Except.ok p =>
    Except.ok { c with
      act_energy_inc := p.act
      pre_energy_inc := p.pre
      read_energy_inc := p.read
      write_energy_inc := p.write
      ref_energy_inc := p.ref
      refb_energy_inc := p.refb
      act_stb_energy_inc := p.act_stb
      pre_stb_energy_inc := p.pre_stb
      pre_pd_energy_inc := p.pre_pd
      sref_energy_inc := p.sref }

/-- Modelled from the spec: the output path members of §6, standing for the
missing body of `Config::InitOtherParams`: each path joins the output
directory, the output prefix and the fixed suffix of that file. -/
def InitOtherParams (ext : Externals) (out_dir : String) (c : Config) : Config :=
  let pre := Config.output_prefix c
  { c with
    output_dir := out_dir
    stats_file := ext.output_path out_dir pre "stats_file"
    epoch_stats_file := ext.output_path out_dir pre "epoch_stats_file"
    stats_file_csv := ext.output_path out_dir pre "stats_file_csv"
    epoch_stats_file_csv := ext.output_path out_dir pre "epoch_stats_file_csv"
    histo_stats_file_csv := ext.output_path out_dir pre "histo_stats_file_csv" }

/-- The integer timing members of the object (`burst_cycle` .. `tRCDWR`). -/
def Config.timing_fields (c : Config) : List Int :=
  [c.burst_cycle, c.AL, c.CL, c.CWL, c.RL, c.WL, c.tCCD_L, c.tCCD_S, c.tRTRS, c.tRTP,
   c.tWTR_L, c.tWTR_S, c.tWR, c.tRP, c.tRRD_L, c.tRRD_S, c.tRAS, c.tRCD, c.tRFC, c.tRC,
   c.tCKE, c.tCKESR, c.tXS, c.tXP, c.tRFCb, c.tREFI, c.tREFIb, c.tFAW, c.tRPRE, c.tWPRE,
   c.read_delay, c.write_delay, c.tPPD, c.t32AW, c.tRCDRD, c.tRCDWR]

/-- The energy-increment members of the object. -/
def Config.energy_fields (c : Config) : List Rat :=
  [c.act_energy_inc, c.pre_energy_inc, c.read_energy_inc, c.write_energy_inc,
   c.ref_energy_inc, c.refb_energy_inc, c.act_stb_energy_inc, c.pre_stb_energy_inc,
   c.pre_pd_energy_inc, c.sref_energy_inc]

/-- Modelled from the spec: "the number of bits needed to address
`channel_size` of memory at `request_size_bytes` granularity" (§3): the
number of bits that tell apart the `channel_size / request_size_bytes`
request-sized blocks (rounded up to whole blocks). -/
def Config.capacity_bits (c : Config) : Int :=
  (ceil_log2 (Int.toNat ((c.channel_size + c.request_size_bytes - 1) / c.request_size_bytes)) : Nat)

/-- Modelled from the spec: §4.6, the Sanity Checker, standing for the missing
body of `Config::SanityCheck` (declared at `configuration.h`, line 204): the
one place that enforces the invariants of §3 on the finished snapshot. It
checks, in this order and failing on the first violation: the bank/bankgroup
product; non-negativity of every timing and energy member; the address-width
sum against the declared capacity, both as the relation of §4.4 item 3
(re-validated) and as the invariant of §3 (the six widths add up to the
number of bits needed to address `channel_size` at `request_size_bytes`
granularity); that bank-staggered refresh has more than one bank; that the
queue depths and the self-refresh threshold are positive; and whatever the
implementation checks beyond this minimum. -/
def SanityCheck (ext : Externals) (c : Config) : Except ConfigError Unit :=
  if c.banks ≠ c.bankgroups * c.banks_per_group then
    Except.error (ConfigError.ConfigValidationError "banks == bankgroups * banks_per_group")
  else if ¬ (c.timing_fields.all (fun t => decide (0 ≤ t))) then
    Except.error (ConfigError.ConfigValidationError "timing fields >= 0")
  else if ¬ (c.energy_fields.all (fun e => decide (0 ≤ e))) then
    Except.error (ConfigError.ConfigValidationError "energy increments >= 0")
  else if ¬ c.capacity_matches ext then
    Except.error (ConfigError.ConfigValidationError
      "channel_size == 2^(rank+bankgroup+bank+row+column widths) * request_size_bytes")
  else if c.address_width ≠ c.capacity_bits then
    Except.error (ConfigError.ConfigValidationError
      "sum of the six address widths == bits to address channel_size by request_size_bytes")
  else if c.refresh_policy = RefreshPolicy.BANK_LEVEL_STAGGERED ∧ c.banks ≤ 1 then
    Except.error (ConfigError.ConfigValidationError "bank-staggered refresh needs banks > 1")
  else if ¬ (0 < c.cmd_queue_size ∧ 0 < c.trans_queue_size ∧ 0 < c.sref_threshold) then
    Except.error (ConfigError.ConfigValidationError
      "cmd_queue_size, trans_queue_size, sref_threshold > 0")
  else ext.further_checks c

/-- Modelled from the spec: the constructor `Config::Config(config_file,
out_dir)` (declared at `configuration.h`, line 38; body missing from the
sources), after the forward data flow of §2: Field Loader, Protocol Resolver,
Timing Deriver, Geometry Calculator, Power Precomputer, output paths, Sanity
Checker. Any failure fails the construction as a whole. -/
def Config.construct (ext : Externals) (config_file out_dir : String) :
    Except ConfigError Config :=
  match ext.load config_file with
  | Except.error e => Except.error e
  | Except.ok loaded =>
    match GetDRAMProtocol loaded.protocol_str with
    | Except.error e => Except.error e
    | Except.ok protocol =>
      let timed := InitTimingParams ext { loaded.fields with protocol := protocol }
      match SetAddressMapping ext timed with
      | Except.error e => Except.error e
      | Except.ok mapped =>
        match InitPowerParams ext mapped with
        | Except.error e => Except.error e
        | Except.ok powered =>
          let c := InitOtherParams ext out_dir powered
          match SanityCheck ext c with
          | Except.error e => Except.error e
          | Except.ok _ => Except.ok c

/-! ## Concrete inputs -/

/-- The members as read from a sample file: 8 banks in 4 bankgroups, 1024
rows, 128 columns, a 64-bit bus and burst length 8 on one rank, with a given
number of channels. The declared capacity is `2^22 * 64 = 268435456` bytes;
every member is a value that a 32-bit `int` holds. The members that later
stages assign are zero or empty here, and `protocol` holds `SIZE` until the
name is resolved. -/
def sample_fields (channels : Int) : Config where
  protocol := DRAMProtocol.SIZE
  channel_size := 268435456
  channels := channels
  ranks := 1
  banks := 8
  bankgroups := 4
  banks_per_group := 2
  rows := 1024
  columns := 128
  device_width := 8
  bus_width := 64
  devices_per_rank := 8
  BL := 8
  tCK := 1
  burst_cycle := 0
  AL := 0
  CL := 12
  CWL := 9
  RL := 0
  WL := 0
  tCCD_L := 6
  tCCD_S := 4
  tRTRS := 1
  tRTP := 5
  tWTR_L := 5
  tWTR_S := 5
  tWR := 10
  tRP := 10
  tRRD_L := 4
  tRRD_S := 4
  tRAS := 24
  tRCD := 10
  tRFC := 74
  tRC := 34
  tCKE := 6
  tCKESR := 12
  tXS := 432
  tXP := 8
  tRFCb := 20
  tREFI := 7800
  tREFIb := 1950
  tFAW := 50
  tRPRE := 1
  tWPRE := 1
  read_delay := 0
  write_delay := 0
  tPPD := 0
  t32AW := 330
  tRCDRD := 24
  tRCDWR := 20
  act_energy_inc := 0
  pre_energy_inc := 0
  read_energy_inc := 0
  write_energy_inc := 0
  ref_energy_inc := 0
  refb_energy_inc := 0
  act_stb_energy_inc := 0
  pre_stb_energy_inc := 0
  pre_pd_energy_inc := 0
  sref_energy_inc := 0
  num_links := 4
  num_dies := 8
  link_width := 16
  link_speed := 30
  num_vaults := 32
  block_size := 32
  xbar_queue_depth := 16
  address_mapping := "chrobabgraco"
  queue_structure := "PER_BANK"
  row_buf_policy := "OPEN_PAGE"
  refresh_policy := RefreshPolicy.RANK_LEVEL_STAGGERED
  cmd_queue_size := 16
  trans_queue_size := 32
  delay_queue_cycles := 0
  enable_self_refresh := false
  sref_threshold := 1000
  aggressive_precharging_enabled := false
  enable_hbm_dual_cmd := false
  output_prefix := "dramsim3"
  epoch_period := 100000
  output_level := 1
  output_dir := ""
  stats_file := ""
  epoch_stats_file := ""
  stats_file_csv := ""
  epoch_stats_file_csv := ""
  histo_stats_file_csv := ""
  request_size_bytes := 0
  channel_width := 0
  rank_width := 0
  bankgroup_width := 0
  bank_width := 0
  row_width := 0
  column_width := 0
  ideal_memory_latency := 10

/-- Sample collaborators: a loader that finds the given protocol name and
members in every file, a quarter-burst GDDR relation, no preamble slack, no
capacity adjustment, fixed whole-number energy increments, paths joined
with a slash, and no further checks. -/
def sample_externals (protocol_str : String) (fields : Config) : Externals where
  load := fun _ => Except.ok ⟨protocol_str, fields⟩
  gddr_burst_cycle := fun BL _ => Int.tdiv BL 4
  read_preamble_slack := fun _ => 0
  write_preamble_slack := fun _ => 0
  capacity_scaling := fun _ _ capacity => capacity
  energy_increments := fun _ =>
    Except.ok ⟨3, 1, 2, 2, 40, 5, 1, 1, 0, 0⟩
  output_path := fun dir pre file => dir ++ "/" ++ pre ++ "." ++ file
  further_checks := fun _ => Except.ok ()

/-! ## Enumerations and capability queries -/

/-- C1 (as amended): `DRAMProtocol` has eleven enumerators. The ten named
protocols DDR3, DDR4, GDDR5, GDDR5X, LPDDR, LPDDR3, LPDDR4, HBM, HBM2, HMC
are pairwise distinct, the enumerator `SIZE` is none of them, and every value
of the type is one of the ten or `SIZE`. -/
theorem DRAMProtocol_named_or_SIZE :
    DRAMProtocol.named.length = 10 ∧ DRAMProtocol.named.Nodup ∧
      DRAMProtocol.SIZE ∉ DRAMProtocol.named ∧
      ∀ p : DRAMProtocol, p ∈ DRAMProtocol.named ∨ p = DRAMProtocol.SIZE := by
  refine ⟨rfl, by decide, by decide, ?_⟩
  intro p
  cases p <;> decide

/-- C1 (counterexample): the enumerator `DRAMProtocol.SIZE` is a value of the
type that is none of the ten named protocols, so the ten do not exhaust the
type. -/
theorem DRAMProtocol_SIZE_not_named :
    DRAMProtocol.SIZE ∉ DRAMProtocol.named ∧
      ¬ (DRAMProtocol.named.Nodup ∧ ∀ p : DRAMProtocol, p ∈ DRAMProtocol.named) :=
  ⟨by decide, fun h => absurd (h.2 DRAMProtocol.SIZE) (by decide)⟩

/-- C9 (as amended): `RefreshPolicy` has four enumerators. The three named
policies (rank-simultaneous, rank-staggered, bank-staggered) are pairwise
distinct, the enumerator `SIZE` is none of them, and every value of the type
is one of the three or `SIZE`. -/
theorem RefreshPolicy_named_or_SIZE :
    RefreshPolicy.named.length = 3 ∧ RefreshPolicy.named.Nodup ∧
      RefreshPolicy.SIZE ∉ RefreshPolicy.named ∧
      ∀ r : RefreshPolicy, r ∈ RefreshPolicy.named ∨ r = RefreshPolicy.SIZE := by
  refine ⟨rfl, by decide, by decide, ?_⟩
  intro r
  cases r <;> decide

/-- C9 (counterexample): the enumerator `RefreshPolicy.SIZE` is a value of the
type that is none of the three named policies, so the three do not exhaust the
type. -/
theorem RefreshPolicy_SIZE_not_named :
    RefreshPolicy.SIZE ∉ RefreshPolicy.named ∧
      ¬ (RefreshPolicy.named.Nodup ∧ ∀ r : RefreshPolicy, r ∈ RefreshPolicy.named) :=
  ⟨by decide, fun h => absurd (h.2 RefreshPolicy.SIZE) (by decide)⟩

/-- C2: `IsGDDR` is true exactly when the protocol is GDDR5 or GDDR5X, and false
exactly on the other enumerators. -/
theorem IsGDDR_iff (c : Config) :
    (c.IsGDDR = true ↔
        (c.protocol = DRAMProtocol.GDDR5 ∨ c.protocol = DRAMProtocol.GDDR5X)) ∧
      (c.IsGDDR = false ↔
        c.protocol ∈ [DRAMProtocol.DDR3, DRAMProtocol.DDR4, DRAMProtocol.LPDDR,
          DRAMProtocol.LPDDR3, DRAMProtocol.LPDDR4, DRAMProtocol.HBM, DRAMProtocol.HBM2,
          DRAMProtocol.HMC, DRAMProtocol.SIZE]) := by
  unfold Config.IsGDDR
  cases c.protocol <;> decide

/-- C3: `IsHBM` is true exactly when the protocol is HBM or HBM2, and false
exactly on the other enumerators. -/
theorem IsHBM_iff (c : Config) :
    (c.IsHBM = true ↔
        (c.protocol = DRAMProtocol.HBM ∨ c.protocol = DRAMProtocol.HBM2)) ∧
      (c.IsHBM = false ↔
        c.protocol ∈ [DRAMProtocol.DDR3, DRAMProtocol.DDR4, DRAMProtocol.GDDR5,
          DRAMProtocol.GDDR5X, DRAMProtocol.LPDDR, DRAMProtocol.LPDDR3,
          DRAMProtocol.LPDDR4, DRAMProtocol.HMC, DRAMProtocol.SIZE]) := by
  unfold Config.IsHBM
  cases c.protocol <;> decide

/-- C4: `IsHMC` is true exactly when the protocol is HMC, and `IsDDR4` is true
exactly when the protocol is DDR4. -/
theorem IsHMC_IsDDR4_iff (c : Config) :
    (c.IsHMC = true ↔ c.protocol = DRAMProtocol.HMC) ∧
      (c.IsDDR4 = true ↔ c.protocol = DRAMProtocol.DDR4) := by
  unfold Config.IsHMC Config.IsDDR4
  cases c.protocol <;> decide

/-- C10: at most one of the four capability queries is true (no two of them
hold together), and with the protocol DDR3 all four are false, so the queries
do not cover the enumeration. -/
theorem capability_queries_exclusive (c : Config) :
    [c.IsGDDR, c.IsHBM, c.IsHMC, c.IsDDR4].count true ≤ 1 ∧
      ¬ (c.IsGDDR = true ∧ c.IsHBM = true) ∧ ¬ (c.IsGDDR = true ∧ c.IsHMC = true) ∧
      ¬ (c.IsGDDR = true ∧ c.IsDDR4 = true) ∧ ¬ (c.IsHBM = true ∧ c.IsHMC = true) ∧
      ¬ (c.IsHBM = true ∧ c.IsDDR4 = true) ∧ ¬ (c.IsHMC = true ∧ c.IsDDR4 = true) ∧
      ({ c with protocol := DRAMProtocol.DDR3 } : Config).IsGDDR = false ∧
      ({ c with protocol := DRAMProtocol.DDR3 } : Config).IsHBM = false ∧
      ({ c with protocol := DRAMProtocol.DDR3 } : Config).IsHMC = false ∧
      ({ c with protocol := DRAMProtocol.DDR3 } : Config).IsDDR4 = false := by
  refine ⟨?_, ?_, ?_, ?_, ?_, ?_, ?_, rfl, rfl, rfl, rfl⟩ <;>
    simp only [Config.IsGDDR, Config.IsHBM, Config.IsHMC, Config.IsDDR4] <;>
    cases c.protocol <;> decide

/-! ## Arithmetic of the address widths -/


theorem ceil_log2_from_spec (n : Nat) :
    ∀ (fuel k : Nat), (∀ j, j < k → 2 ^ j < n) → n ≤ 2 ^ (k + fuel) →
      n ≤ 2 ^ ceil_log2_from n fuel k ∧ ∀ j, j < ceil_log2_from n fuel k → 2 ^ j < n := by
  intro fuel
  induction fuel with
  | zero =>
    intro k hlow hfuel
    exact ⟨by simpa [ceil_log2_from] using hfuel, by simpa [ceil_log2_from] using hlow⟩
  | succ fuel ih =>
    intro k hlow hfuel
    by_cases hk : n ≤ 2 ^ k
    · have e : ceil_log2_from n (fuel + 1) k = k := by simp [ceil_log2_from, hk]
      rw [e]
      exact ⟨hk, hlow⟩
    · have e : ceil_log2_from n (fuel + 1) k = ceil_log2_from n fuel (k + 1) := by
        simp [ceil_log2_from, hk]
      rw [e]
      apply ih (k + 1)
      · intro j hj
        rcases Nat.lt_succ_iff_lt_or_eq.mp hj with h | h
        · exact hlow j h
        · subst h; exact Nat.lt_of_not_le hk
      · have : k + 1 + fuel = k + (fuel + 1) := by omega
        rw [this]; exact hfuel

theorem ceil_log2_eq_clog (n : Nat) : ceil_log2 n = Nat.clog 2 n := by
  have h := ceil_log2_from_spec n n 0 (fun j hj => absurd hj (Nat.not_lt_zero j))
    (by simpa using (Nat.lt_two_pow n).le)
  apply Nat.le_antisymm
  · by_contra hlt
    have := h.2 _ (Nat.lt_of_not_le hlt)
    exact absurd (Nat.le_pow_clog (by decide) n) (Nat.not_le_of_lt this)
  · exact (Nat.le_pow_iff_clog_le (by decide)).mp h.1

theorem ceil_log2_two_pow (k : Nat) : ceil_log2 (2 ^ k) = k := by
  rw [ceil_log2_eq_clog]; exact Nat.clog_pow 2 k (by decide)

theorem LogBase2_nonneg (count : Int) : 0 ≤ LogBase2 count := by
  unfold LogBase2; exact Int.ofNat_nonneg _

theorem ceil_log2_blocks (size req : Int) (k : Nat) (hreq : 0 < req)
    (hsize : size = 2 ^ k * req) :
    ceil_log2 (Int.toNat ((size + req - 1) / req)) = k := by
  have h1 : size + req - 1 = (req - 1) + 2 ^ k * req := by rw [hsize]; ring
  have h2 : (req - 1) / req = 0 := Int.ediv_eq_zero_of_lt (by omega) (by omega)
  rw [h1, Int.add_mul_ediv_right _ _ (ne_of_gt hreq), h2, zero_add]
  have h3 : ((2 : Int) ^ k).toNat = 2 ^ k := by
    have : ((2 : Int) ^ k) = ((2 ^ k : Nat) : Int) := by push_cast; rfl
    rw [this, Int.toNat_natCast]
  rw [h3, ceil_log2_two_pow]

/-! ## The stages of the constructor -/

theorem GetDRAMProtocol_unknown (name : String)
    (hname : name ∉ ["DDR3", "DDR4", "GDDR5", "GDDR5X", "LPDDR", "LPDDR3", "LPDDR4",
      "HBM", "HBM2", "HMC"]) :
    GetDRAMProtocol name = Except.error (ConfigError.InvalidProtocolError name) := by
  have hnone : protocol_pairs.lookup name = none := by
    rw [List.lookup_eq_none_iff]
    intro p hp
    simp only [protocol_pairs, List.mem_cons, List.mem_singleton, List.not_mem_nil,
      or_false] at hp
    simp only [List.mem_cons, List.mem_singleton, List.not_mem_nil, or_false,
      not_or] at hname
    rcases hp with h | h | h | h | h | h | h | h | h | h <;> subst h <;> simp [hname]
  unfold GetDRAMProtocol
  rw [hnone]

theorem construct_ok {ext : Externals} {config_file out_dir : String} {c : Config}
    (h : Config.construct ext config_file out_dir = Except.ok c) :
    ∃ loaded protocol mapped powered,
      ext.load config_file = Except.ok loaded ∧
      GetDRAMProtocol loaded.protocol_str = Except.ok protocol ∧
      SetAddressMapping ext
        (InitTimingParams ext { loaded.fields with protocol := protocol }) = Except.ok mapped ∧
      InitPowerParams ext mapped = Except.ok powered ∧
      SanityCheck ext (InitOtherParams ext out_dir powered) = Except.ok () ∧
      c = InitOtherParams ext out_dir powered := by
  unfold Config.construct at h
  cases hl : ext.load config_file with
  | error e => simp [hl] at h
  | ok loaded =>
    cases hp : GetDRAMProtocol loaded.protocol_str with
    | error e => simp [hl, hp] at h
    | ok protocol =>
      cases hm : SetAddressMapping ext
          (InitTimingParams ext { loaded.fields with protocol := protocol }) with
      | error e => simp [hl, hp, hm] at h
      | ok mapped =>
        cases hw : InitPowerParams ext mapped with
        | error e => simp [hl, hp, hm, hw] at h
        | ok powered =>
          cases hs : SanityCheck ext (InitOtherParams ext out_dir powered) with
          | error e => simp [hl, hp, hm, hw, hs] at h
          | ok u =>
            simp [hl, hp, hm, hw, hs] at h
            exact ⟨loaded, protocol, mapped, powered, rfl, hp, hm, hw, hs, h.symm⟩


theorem SetAddressMapping_ok {ext : Externals} {c mapped : Config}
    (h : SetAddressMapping ext c = Except.ok mapped) :
    mapped =
      { c with
        request_size_bytes := Int.tdiv c.bus_width 8 * c.BL
        channel_width := LogBase2 c.channels
        rank_width := LogBase2 c.ranks
        bankgroup_width := LogBase2 c.bankgroups
        bank_width := LogBase2 c.banks
        row_width := LogBase2 c.rows
        column_width := LogBase2 c.columns } := by
  unfold SetAddressMapping at h
  simp only at h
  split at h
  · exact (Except.ok.inj h).symm
  · cases h

theorem InitPowerParams_ok {ext : Externals} {c powered : Config}
    (h : InitPowerParams ext c = Except.ok powered) :
    ∃ p : EnergyIncrements, powered =
      { c with
        act_energy_inc := p.act
        pre_energy_inc := p.pre
        read_energy_inc := p.read
        write_energy_inc := p.write
        ref_energy_inc := p.ref
        refb_energy_inc := p.refb
        act_stb_energy_inc := p.act_stb
        pre_stb_energy_inc := p.pre_stb
        pre_pd_energy_inc := p.pre_pd
        sref_energy_inc := p.sref } := by
  unfold InitPowerParams at h
  cases hp : ext.energy_increments c with
  | error e => simp [hp] at h
  | ok p =>
    simp only [hp] at h
    exact ⟨p, (Except.ok.inj h).symm⟩

theorem SanityCheck_ok {ext : Externals} {c : Config}
    (h : SanityCheck ext c = Except.ok ()) :
    c.banks = c.bankgroups * c.banks_per_group ∧ c.capacity_matches ext = true ∧
      c.address_width = c.capacity_bits := by
  unfold SanityCheck at h
  split at h
  · cases h
  · split at h
    · cases h
    · split at h
      · cases h
      · split at h
        · cases h
        · split at h
          · cases h
          · rename_i hb _ _ hc hw
            exact ⟨not_not.mp hb, by simpa using hc, not_not.mp hw⟩

/-- What every constructed snapshot looks like: the loaded members with the
resolved protocol, run through the four derivation stages. -/
theorem construct_shape {ext : Externals} {config_file out_dir : String} {c : Config}
    (h : Config.construct ext config_file out_dir = Except.ok c) :
    ∃ (loaded : Loaded) (protocol : DRAMProtocol) (base : Config) (p : EnergyIncrements),
      ext.load config_file = Except.ok loaded ∧
      base = { loaded.fields with protocol := protocol } ∧
      SanityCheck ext c = Except.ok () ∧
      c = InitOtherParams ext out_dir
        { ({ InitTimingParams ext base with
              request_size_bytes := Int.tdiv (InitTimingParams ext base).bus_width 8 *
                (InitTimingParams ext base).BL
              channel_width := LogBase2 (InitTimingParams ext base).channels
              rank_width := LogBase2 (InitTimingParams ext base).ranks
              bankgroup_width := LogBase2 (InitTimingParams ext base).bankgroups
              bank_width := LogBase2 (InitTimingParams ext base).banks
              row_width := LogBase2 (InitTimingParams ext base).rows
              column_width := LogBase2 (InitTimingParams ext base).columns } : Config) with
          act_energy_inc := p.act
          pre_energy_inc := p.pre
          read_energy_inc := p.read
          write_energy_inc := p.write
          ref_energy_inc := p.ref
          refb_energy_inc := p.refb
          act_stb_energy_inc := p.act_stb
          pre_stb_energy_inc := p.pre_stb
          pre_pd_energy_inc := p.pre_pd
          sref_energy_inc := p.sref } := by
  obtain ⟨loaded, protocol, mapped, powered, hl, _, hm, hw, hs, hc⟩ := construct_ok h
  obtain ⟨p, hp⟩ := InitPowerParams_ok hw
  have hm' := SetAddressMapping_ok hm
  subst hm'
  subst hp
  subst hc
  exact ⟨loaded, protocol, _, p, hl, rfl, hs, rfl⟩

/-! ## Properties of the constructed snapshot -/

/-- C5: every snapshot that the constructor produces has `RL = AL + CL` and
`WL = AL + CWL`, whatever the loaded members and the resolved protocol. -/
theorem construct_read_write_latency (ext : Externals) (config_file out_dir : String)
    (c : Config) (h : Config.construct ext config_file out_dir = Except.ok c) :
    c.RL = c.AL + c.CL ∧ c.WL = c.AL + c.CWL := by
  obtain ⟨_, _, base, p, _, _, _, hc⟩ := construct_shape h
  subst hc
  exact ⟨rfl, rfl⟩

/-- C5 (witness): the sample DDR4 file is accepted, with `AL = 0`, `CL = 12`,
`CWL = 9`, and the snapshot has `RL = 12` and `WL = 9`. -/
theorem construct_read_write_latency_sample :
    ∃ c, Config.construct (sample_externals "DDR4" (sample_fields 1)) "dram.ini" "out"
        = Except.ok c ∧
      (c.AL = 0 ∧ c.CL = 12 ∧ c.CWL = 9 ∧ c.RL = 12 ∧ c.WL = 9) ∧
      (c.RL = c.AL + c.CL ∧ c.WL = c.AL + c.CWL) :=
  ⟨_, rfl, by decide,
    construct_read_write_latency (sample_externals "DDR4" (sample_fields 1)) "dram.ini" "out"
      _ rfl⟩

/-- C6: every snapshot that the constructor produces, for every protocol, has
`banks = bankgroups * banks_per_group`; when bankgroups are not used (the
banks form a single group, `bankgroups = 1`) this reads
`banks_per_group = banks`. -/
theorem construct_banks_product (ext : Externals) (config_file out_dir : String)
    (c : Config) (h : Config.construct ext config_file out_dir = Except.ok c) :
    c.banks = c.bankgroups * c.banks_per_group ∧
      (c.bankgroups = 1 → c.banks_per_group = c.banks) := by
  obtain ⟨_, _, base, p, _, _, hs, _⟩ := construct_shape h
  have hb := (SanityCheck_ok hs).1
  refine ⟨hb, fun h1 => ?_⟩
  rw [hb, h1, one_mul]

/-- C6 (witness): the sample GDDR5 file (8 banks in 4 groups of 2) is accepted
and its snapshot has `banks = bankgroups * banks_per_group`. -/
theorem construct_banks_product_sample :
    ∃ c, Config.construct (sample_externals "GDDR5" (sample_fields 1)) "dram.ini" "out"
        = Except.ok c ∧
      (c.banks = 8 ∧ c.bankgroups = 4 ∧ c.banks_per_group = 2) ∧
      (c.banks = c.bankgroups * c.banks_per_group ∧
        (c.bankgroups = 1 → c.banks_per_group = c.banks)) :=
  ⟨_, rfl, by decide,
    construct_banks_product (sample_externals "GDDR5" (sample_fields 1)) "dram.ini" "out"
      _ rfl⟩

/-- C7: a protocol name that is not one of the ten enumeration names is
resolved to `InvalidProtocolError` carrying that name, never to a protocol
value, and a constructor call whose loaded protocol name it is fails with
that error instead of returning a snapshot. -/
theorem unknown_protocol_rejected (name : String)
    (hname : name ∉ ["DDR3", "DDR4", "GDDR5", "GDDR5X", "LPDDR", "LPDDR3", "LPDDR4",
      "HBM", "HBM2", "HMC"]) :
    GetDRAMProtocol name = Except.error (ConfigError.InvalidProtocolError name) ∧
      (∀ p : DRAMProtocol, GetDRAMProtocol name ≠ Except.ok p) ∧
      ∀ (ext : Externals) (config_file out_dir : String) (loaded : Loaded),
        ext.load config_file = Except.ok loaded → loaded.protocol_str = name →
        Config.construct ext config_file out_dir
          = Except.error (ConfigError.InvalidProtocolError name) ∧
        ∀ c : Config, Config.construct ext config_file out_dir ≠ Except.ok c := by
  have hres := GetDRAMProtocol_unknown name hname
  refine ⟨hres, fun p hp => (by rw [hres] at hp; cases hp), ?_⟩
  intro ext config_file out_dir loaded hl hn
  have hfail : Config.construct ext config_file out_dir
      = Except.error (ConfigError.InvalidProtocolError name) := by
    unfold Config.construct
    simp only [hl, hn, hres]
  exact ⟨hfail, fun c hc => (by rw [hfail] at hc; cases hc)⟩

/-- C7 (witness): the name "DDR9" is not among the ten, resolving it fails
with `InvalidProtocolError "DDR9"`, and so does the constructor on a file
whose protocol name is "DDR9". -/
theorem unknown_protocol_rejected_DDR9 :
    GetDRAMProtocol "DDR9" = Except.error (ConfigError.InvalidProtocolError "DDR9") ∧
      Config.construct (sample_externals "DDR9" (sample_fields 1)) "dram.ini" "out"
        = Except.error (ConfigError.InvalidProtocolError "DDR9") :=
  ⟨(unknown_protocol_rejected "DDR9" (by decide)).1,
    ((unknown_protocol_rejected "DDR9" (by decide)).2.2
      (sample_externals "DDR9" (sample_fields 1)) "dram.ini" "out"
      ⟨"DDR9", sample_fields 1⟩ rfl rfl).1⟩

/-- With both checks of the Sanity Checker on the address-width sum in force,
a snapshot whose declared capacity is exactly
`2^(rank_width + bankgroup_width + bank_width + row_width + column_width) *
request_size_bytes`, with a positive request size, has a channel width of 0:
the five widths below the channel field already are the bits that address
`channel_size`. -/
theorem construct_unscaled_capacity_channel_width (ext : Externals)
    (config_file out_dir : String) (c : Config)
    (h : Config.construct ext config_file out_dir = Except.ok c)
    (hpos : 0 < c.request_size_bytes)
    (hsize : c.channel_size = 2 ^ c.in_channel_width.toNat * c.request_size_bytes) :
    c.capacity_bits = c.in_channel_width ∧ c.channel_width = 0 := by
  obtain ⟨_, _, base, p, _, _, hs, hc⟩ := construct_shape h
  have hsum := (SanityCheck_ok hs).2.2
  have hw : c.rank_width = LogBase2 c.ranks ∧
      c.bankgroup_width = LogBase2 c.bankgroups ∧ c.bank_width = LogBase2 c.banks ∧
      c.row_width = LogBase2 c.rows ∧ c.column_width = LogBase2 c.columns := by
    rw [hc]; exact ⟨rfl, rfl, rfl, rfl, rfl⟩
  have hnn : 0 ≤ c.in_channel_width := by
    unfold Config.in_channel_width
    rw [hw.1, hw.2.1, hw.2.2.1, hw.2.2.2.1, hw.2.2.2.2]
    have h1 := LogBase2_nonneg c.ranks
    have h2 := LogBase2_nonneg c.bankgroups
    have h3 := LogBase2_nonneg c.banks
    have h4 := LogBase2_nonneg c.rows
    have h5 := LogBase2_nonneg c.columns
    omega
  have hbits : c.capacity_bits = c.in_channel_width := by
    unfold Config.capacity_bits
    rw [ceil_log2_blocks c.channel_size c.request_size_bytes _ hpos hsize]
    exact Int.toNat_of_nonneg hnn
  refine ⟨hbits, ?_⟩
  rw [hbits] at hsum
  unfold Config.address_width Config.in_channel_width at hsum
  omega

/-- The sample DDR4 file with two channels is rejected: its six widths add up
to 23 while 22 bits address its `channel_size`, and the Sanity Checker names
the violated relation. -/
theorem construct_rejects_second_channel :
    Config.construct (sample_externals "DDR4" (sample_fields 2)) "dram.ini" "out"
      = Except.error (ConfigError.ConfigValidationError
          "sum of the six address widths == bits to address channel_size by request_size_bytes") := by
  rfl

/-- Every one of the ten protocol names is accepted on the sample members, and
the snapshot carries the protocol of that name. -/
theorem construct_accepts_named_protocols :
    ∀ pair ∈ protocol_pairs,
      (Config.construct (sample_externals pair.1 (sample_fields 1)) "dram.ini" "out").toOption.map
        (fun c => c.protocol) = some pair.2 := by
  decide

/-- The inconsistent example of the specification's §8 (`bankgroups = 3`,
`banks_per_group = 2`, `banks = 5`) is rejected with a validation error that
names the product relation. -/
theorem construct_rejects_inconsistent_banks :
    Config.construct
        (sample_externals "DDR4" { sample_fields 1 with bankgroups := 3, banks := 5 })
        "dram.ini" "out"
      = Except.error (ConfigError.ConfigValidationError
          "banks == bankgroups * banks_per_group") := by
  rfl

end dramsim3
